import Mathlib

/-!
Shallow embedding of the SkillMaster quiz progression engine
(`src/backend/src/api/routers/quiz_ai.py`) and the generic relational
progress upsert (`src/backend/src/api/routes/relational.py`), together with
theorems settling the specification claims about them.

Modelling conventions:
* Python floats are modelled as exact rationals (`ℚ`); Python `round(x, 2)`
  is modelled as round-half-even at two decimal places (`pyRound2`).
* The SQLAlchemy tables are modelled as Lean lists of records; a query's
  `.first()` is the first element satisfying the filter (in list order for
  un-ordered queries, by explicit selection for ordered ones).
* Raising `HTTPException` is modelled as returning `Except.error`; in that
  case the session is rolled back, so the progress table is returned
  unchanged.  `session.add` + `session.commit` is modelled as appending the
  new rows to the progress table.
* Columns never read by the modelled operations (slugs, titles, content,
  timestamps of lessons/activities) are omitted from the record types.
* The `deleted_at=None` keyword passed to all three `Progress(...)`
  constructor calls of `submit_quiz` (`quiz_ai.py`, lines 213-224, 232-243,
  252-263) names no attribute of the `Progress` model, so SQLAlchemy's
  declarative constructor raises `TypeError` at the first of them
  (line 213).  This is modelled as the `typeError` outcome: the session
  rolls back, no row is inserted, and no response is produced — every
  submission that survives the 404 and 400 checks fails there.
-/

namespace SkillMaster

/-- JSON values as stored in the `quiz_questions` JSON column
(`relational_models.py`, line 172).  Only the shapes a JSON document can
take are represented; numbers in these documents are integers. -/
inductive JValue where
  | jnull : JValue
  | jbool (b : Bool) : JValue
  | jint (n : Int) : JValue
  | jstr (s : String) : JValue
  | jlist (xs : List JValue) : JValue
  | jobj (fields : List (String × JValue)) : JValue

/-- A row of the `lessons` table (`relational_models.py`, lines 128-147),
restricted to the columns read by the quiz engine. -/
structure Lesson where
  id : Int
  module_id : Int
  order_index : Int
  is_deleted : Bool := false
deriving DecidableEq

/-- A row of the `activities` table (`relational_models.py`, lines 156-180),
restricted to the columns read by the quiz engine. -/
structure Activity where
  id : Int
  lesson_id : Int
  type : String
  order_index : Int := 0
  quiz_questions : Option (List JValue) := none
  quiz_pass_score : Option ℚ := none
  is_deleted : Bool := false

/-- A row of the `progress` table (`relational_models.py`, lines 183-199).
`created_at`/`updated_at` are abstract instants (naturals). -/
structure Progress where
  id : Int
  user_id : String
  subject_id : Option Int := none
  module_id : Option Int := none
  lesson_id : Option Int := none
  activity_id : Option Int := none
  completed : Bool := false
  score : Option ℚ := none
  created_at : Nat := 0
  updated_at : Nat := 0
  is_deleted : Bool := false
deriving DecidableEq

/-- Python `round(q, 2)`: scale by 100, round half to even, scale back.
This is the exact-rational model of CPython's `round` on floats, computed
on the reduced numerator/denominator pair of `q`: `q * 100` is the
rational `(q.num * 100) / q.den`, its floor is `(q.num * 100).ediv q.den`
(the denominator is positive), and the fractional part `r / q.den` is
compared with `1/2` by comparing `2 * r` with `q.den`. -/
def pyRound2 (q : ℚ) : ℚ :=
  let n : Int := q.num * 100
  let d : Int := (q.den : Int)
  let f : Int := n.ediv d
  let r : Int := n.emod d
  let rr : Int :=
    if 2 * r < d then f
    else if d < 2 * r then f + 1
    else if f % 2 = 0 then f else f + 1
  mkRat rr 100

/-- Python `float(x or d)` for an optional numeric column `x`: both `None`
and `0.0` are falsy, so they fall back to the default `d`. -/
def pyOrFloat (x : Option ℚ) (d : ℚ) : ℚ :=
  match x with
  | some v => if v = 0 then d else v
  | none => d

/-- Continuation of `py_digit_run`: after the first digit, every
underscore must be followed by a digit (no trailing or doubled
underscore). -/
def py_digit_run_rest : List Char → Bool
  | [] => true
  | ['_'] => false
  | '_' :: c :: cs => c.isDigit && py_digit_run_rest cs
  | c :: cs => c.isDigit && py_digit_run_rest cs

/-- The digit run accepted by Python `int()` after the optional sign: at
least one decimal digit, with single underscores allowed between digits
(PEP 515). -/
def py_digit_run : List Char → Bool
  | [] => false
  | c :: cs => c.isDigit && py_digit_run_rest cs

/-- Strip leading and trailing whitespace from a character list, as
Python `int()` does to its string argument before parsing. -/
def py_strip (cs : List Char) : List Char :=
  ((cs.dropWhile Char.isWhitespace).reverse.dropWhile Char.isWhitespace).reverse

/-- Python `int(s)` on a string: strip surrounding whitespace, allow one
optional `+`/`-` sign, then a digit run per `py_digit_run`; anything else
raises `ValueError` (`none`).  CPython additionally accepts non-ASCII
Unicode digits and whitespace, which are not modelled. -/
def pyIntOfStr (s : String) : Option Int :=
  let cs : List Char := py_strip s.toList
  let sign : Int :=
    match cs with
    | '-' :: _ => -1
    | _ => 1
  let body : List Char :=
    match cs with
    | '+' :: rest => rest
    | '-' :: rest => rest
    | _ => cs
  if py_digit_run body then
    some (sign * ((body.filter (fun c => c != '_')).foldl
      (fun acc c => acc * 10 + ((c.toNat - Char.toNat '0' : Nat) : Int)) 0))
  else none

/-- Python `int(v)` applied to a JSON value: integers pass through,
booleans coerce to 0/1, decimal strings parse per `pyIntOfStr`;
everything else raises (`none`). -/
def pyInt : JValue → Option Int
  | .jint n => some n
  | .jbool b => some (if b then 1 else 0)
  | .jstr s => pyIntOfStr s
  | _ => none

/-- Python dict lookup `d[key]` on a JSON object (first binding wins). -/
def jlookup (fields : List (String × JValue)) (key : String) : Option JValue :=
  (fields.find? (fun kv => kv.1 == key)).map (fun kv => kv.2)

/-- The `int(questions[idx]["answerIndex"])` expression of
`quiz_ai.py`, line 200, with every raised exception collapsed to `none`
(the `except` clause of lines 203-205): subscripting a non-object, a
missing key, and a non-coercible value all raise. -/
def stored_answer_index : JValue → Option Int
  | .jobj fields => (jlookup fields "answerIndex").bind pyInt
  | _ => none

/-- Grading of one question (`quiz_ai.py`, lines 198-205): the submitted
answer is correct iff the stored `answerIndex` can be read and equals it;
a malformed question counts as incorrect. -/
def grade_answer (question : JValue) (ans : Int) : Bool :=
  match stored_answer_index question with
  | some correct_idx => ans == correct_idx
  | none => false

/-- The grading loop of `quiz_ai.py`, lines 197-205: count the positions
whose submitted answer grades correct. -/
def grade_correct (answers : List Int) (questions : List JValue) : Nat :=
  (answers.zip questions).countP (fun p => grade_answer p.2 p.1)

/-- The expression `score = round((correct / total) * 100.0, 2) if total else 0.0`
(`quiz_ai.py`, line 208); the division is exact rational division, so the
argument `(correct / total) * 100` is the rational `(correct * 100) / total`
(see `quiz_score_eq_spec_score` for the equivalence with the spelled-out
formula). -/
def quiz_score (correct total : Nat) : ℚ :=
  if total ≠ 0 then pyRound2 (mkRat ((correct : Int) * 100) total) else 0

/-- The expression `pass_score = float(activity.quiz_pass_score or 70.0)`
(`quiz_ai.py`, line 209). -/
def effective_pass_score (activity : Activity) : ℚ :=
  pyOrFloat activity.quiz_pass_score 70

/-- The ordered query of `_get_next_lesson` (`quiz_ai.py`, lines 67-76):
`ORDER BY order_index ASC ... .first()`, i.e. an element of minimal
`order_index` (ties broken towards the front of the table). -/
def min_by_order_index : List Lesson → Option Lesson
  | [] => none
  | l :: ls =>
    match min_by_order_index ls with
    | none => some l
    | some b => if l.order_index ≤ b.order_index then some l else some b

/-- The helper `_get_next_lesson` (`quiz_ai.py`, lines 67-76): among the lessons of
the same module with strictly larger `order_index`, the one with the
smallest `order_index`. -/
def get_next_lesson (lessons : List Lesson) (current_lesson : Lesson) : Option Lesson :=
  min_by_order_index (lessons.filter (fun l =>
    l.module_id == current_lesson.module_id &&
      current_lesson.order_index < l.order_index))

/-- Request body of the submit endpoint (`quiz_ai.py`, lines 39-48). -/
structure SubmitQuizRequest where
  user_id : String
  activity_id : Int
  answers : List Int
deriving DecidableEq

/-- Response body of the submit endpoint (`quiz_ai.py`, lines 50-57). -/
structure SubmitQuizResponse where
  activity_id : Int
  lesson_id : Int
  total_questions : Nat
  correct : Nat
  score : ℚ
  passed : Bool
  unlocked_next_lesson_id : Option Int
deriving DecidableEq

/-- The error outcomes of the submit endpoint: the pydantic
`answers_non_empty` validator (`quiz_ai.py`, lines 44-48), the 404 of
line 190, the 400 of line 194, and the uncaught `TypeError` (HTTP 500)
raised by `Progress(..., deleted_at=None)` at line 213 — the `Progress`
model (`relational_models.py`, lines 183-199) has no `deleted_at`
attribute, so the declarative constructor rejects the keyword. -/
inductive SubmitError where
  | validationError : SubmitError
  | notFound : SubmitError
  | invalidLength : SubmitError
  | typeError : SubmitError
deriving DecidableEq

set_option linter.unusedVariables false in
/-- The `submit_quiz` handler (`quiz_ai.py`, lines 187-277), after FastAPI
request validation.  `now` stands for `datetime.utcnow()`; `nextId` for the
next autoincrement id of the `progress` table (both unused: no row is ever
inserted).  The second component is the progress table after the call; it
is always unchanged, because the handler raises before any `session.add`
on every path: the 404 of line 190, the 400 of line 194, or — after the
grading of lines 197-210 has run — the `TypeError` raised by
`Progress(user_id=..., ..., deleted_at=None)` at line 213, whose
`deleted_at` keyword names no attribute of the `Progress` model.  The
session rolls back in every case. -/
def submit_quiz (lessons : List Lesson) (activities : List Activity)
    (db : List Progress) (payload : SubmitQuizRequest) (now : Nat) (nextId : Int) :
    Except SubmitError SubmitQuizResponse × List Progress :=
  match activities.find? (fun a => a.id == payload.activity_id && a.type == "quiz") with
  | none => (.error .notFound, db)
  | some activity =>
    let questions : List JValue := activity.quiz_questions.getD []
    if payload.answers.length ≠ questions.length then
      (.error .invalidLength, db)
    else
      let correct : Nat := grade_correct payload.answers questions
      let total : Nat := questions.length
      let score : ℚ := quiz_score correct total
      let pass_score : ℚ := effective_pass_score activity
      let passed : Bool := decide (pass_score ≤ score)
      (.error .typeError, db)

/-- The public submit operation: FastAPI runs the pydantic
`answers_non_empty` validator (`quiz_ai.py`, lines 44-48) before the
handler; an empty answers list is rejected before any lookup or write. -/
def submit_quiz_endpoint (lessons : List Lesson) (activities : List Activity)
    (db : List Progress) (payload : SubmitQuizRequest) (now : Nat) (nextId : Int) :
    Except SubmitError SubmitQuizResponse × List Progress :=
  if payload.answers.isEmpty then (.error .validationError, db)
  else submit_quiz lessons activities db payload now nextId

/-! ### The generic relational progress upsert (`relational.py`, lines 870-994) -/

/-- Request body of the relational progress upsert
(`relational.py`, lines 870-884). -/
structure ProgressUpsertPayload where
  user_id : String
  entity_type : String
  entity_id : Int
  status : String
  score : Option ℚ := none
deriving DecidableEq

/-- The four optional foreign keys a progress row can carry, as produced by
`_resolve_progress_targets` (`relational.py`, lines 887-900). -/
structure Refs where
  subject_id : Option Int := none
  module_id : Option Int := none
  lesson_id : Option Int := none
  activity_id : Option Int := none
deriving DecidableEq

/-- The 400 errors of the upsert path: invalid `status`
(`relational.py`, line 957), invalid `entity_type` (line 899), and a
dangling entity reference (`_validate_references`, lines 903-912). -/
inductive UpsertError where
  | invalidStatus : UpsertError
  | invalidEntityType : UpsertError
  | invalidReference : UpsertError
deriving DecidableEq

/-- The helper `_resolve_progress_targets` (`relational.py`, lines 887-900): map
`entity_type`/`entity_id` to exactly one foreign key, the others `None`. -/
def resolve_progress_targets (payload : ProgressUpsertPayload) : Except UpsertError Refs :=
  if payload.entity_type == "subject" then .ok { subject_id := some payload.entity_id }
  else if payload.entity_type == "module" then .ok { module_id := some payload.entity_id }
  else if payload.entity_type == "lesson" then .ok { lesson_id := some payload.entity_id }
  else if payload.entity_type == "activity" then .ok { activity_id := some payload.entity_id }
  else .error .invalidEntityType

/-- The helper `_validate_references` (`relational.py`, lines 903-912): every non-null
reference must denote an existing row (`session.get` by primary key; the
soft-delete flag is not consulted there).  The four tables are abstracted
to their lists of primary keys. -/
def validate_references (subjects modules lessons activities : List Int) (refs : Refs) : Bool :=
  (match refs.subject_id with | some i => subjects.contains i | none => true) &&
  (match refs.module_id with | some i => modules.contains i | none => true) &&
  (match refs.lesson_id with | some i => lessons.contains i | none => true) &&
  (match refs.activity_id with | some i => activities.contains i | none => true)

/-- The filter of the upsert query (`relational.py`, lines 965-971): same
user, all four foreign keys equal (`IS NULL` for absent ones), and not
soft-deleted. -/
def matches_key (uid : String) (refs : Refs) (p : Progress) : Bool :=
  p.user_id == uid &&
  p.subject_id == refs.subject_id &&
  p.module_id == refs.module_id &&
  p.lesson_id == refs.lesson_id &&
  p.activity_id == refs.activity_id &&
  !p.is_deleted

/-- The query `ORDER BY updated_at DESC ... .first()` over the rows passing
`matches_key` (`relational.py`, lines 972-974): a matching row of maximal
`updated_at` (ties broken towards the back of the table). -/
def latest_match (uid : String) (refs : Refs) : List Progress → Option Progress
  | [] => none
  | p :: ps =>
    match latest_match uid refs ps with
    | none => if matches_key uid refs p then some p else none
    | some b =>
      if matches_key uid refs p && decide (b.updated_at < p.updated_at) then some p
      else some b

/-- The in-place update of `upsert_progress` (`relational.py`, lines
976-978): overwrite `completed` and `score` on the existing row; the
column-level `onupdate` of `relational_models.py`, line 55, bumps
`updated_at` on flush. -/
def progress_updated (existing : Progress) (completed : Bool) (score : Option ℚ)
    (now : Nat) : Progress :=
  { existing with completed := completed, score := score, updated_at := now }

/-- The fresh row constructed by `upsert_progress`
(`relational.py`, lines 982-990). -/
def progress_new (newId : Int) (user_id : String) (refs : Refs) (completed : Bool)
    (score : Option ℚ) (now : Nat) : Progress :=
  { id := newId, user_id := user_id, subject_id := refs.subject_id,
    module_id := refs.module_id, lesson_id := refs.lesson_id,
    activity_id := refs.activity_id, completed := completed, score := score,
    created_at := now, updated_at := now, is_deleted := false }

/-- The handler `upsert_progress` (`relational.py`, lines 954-994): update the most
recently updated matching non-deleted row in place, or insert a fresh row
when nothing matches.  The row update is by primary key, modelling the
ORM's identity-based UPDATE. -/
def upsert_progress (subjects modules lessons activities : List Int)
    (db : List Progress) (payload : ProgressUpsertPayload) (now : Nat) (newId : Int) :
    Except UpsertError (Progress × List Progress) :=
  if payload.status != "completed" && payload.status != "in_progress" then
    .error .invalidStatus
  else
    let completed : Bool := payload.status == "completed"
    match resolve_progress_targets payload with
    | .error e => .error e
    | .ok refs =>
      if ! validate_references subjects modules lessons activities refs then
        .error .invalidReference
      else
        match latest_match payload.user_id refs db with
        | some existing =>
          let updated : Progress := progress_updated existing completed payload.score now
          .ok (updated, db.map (fun p => if p.id == existing.id then updated else p))
        | none =>
          let entity : Progress := progress_new newId payload.user_id refs completed
            payload.score now
          .ok (entity, db ++ [entity])

/-! ### Lemmas about the next-lesson query -/

lemma min_by_order_index_eq_none {ls : List Lesson}
    (h : min_by_order_index ls = none) : ls = [] := by
  cases ls with
  | nil => rfl
  | cons x xs =>
    unfold min_by_order_index at h
    split at h
    · simp at h
    · split at h <;> simp at h

lemma min_by_order_index_mem {ls : List Lesson} {l : Lesson}
    (h : min_by_order_index ls = some l) : l ∈ ls := by
  induction ls with
  | nil => simp [min_by_order_index] at h
  | cons x xs ih =>
    unfold min_by_order_index at h
    split at h
    case _ hm =>
      cases h
      exact List.mem_cons_self _ _
    case _ b hm =>
      split at h
      · cases h
        exact List.mem_cons_self _ _
      · cases h
        exact List.mem_cons_of_mem _ (ih hm)

lemma min_by_order_index_le {ls : List Lesson} {l : Lesson}
    (h : min_by_order_index ls = some l) :
    ∀ x ∈ ls, l.order_index ≤ x.order_index := by
  induction ls generalizing l with
  | nil => simp [min_by_order_index] at h
  | cons y xs ih =>
    unfold min_by_order_index at h
    split at h
    case _ hm =>
      cases h
      have hnil := min_by_order_index_eq_none hm
      subst hnil
      intro x hx
      rcases List.mem_cons.mp hx with hx | hx
      · subst hx; exact le_refl _
      · simp at hx
    case _ b hm =>
      split at h
      case _ hc =>
        cases h
        intro x hx
        rcases List.mem_cons.mp hx with hx | hx
        · subst hx; exact le_refl _
        · exact le_trans hc (ih hm x hx)
      case _ hc =>
        cases h
        intro x hx
        rcases List.mem_cons.mp hx with hx | hx
        · subst hx; exact le_of_not_le hc
        · exact ih hm x hx

lemma get_next_lesson_some {lessons : List Lesson} {cur nl : Lesson}
    (h : get_next_lesson lessons cur = some nl) :
    nl ∈ lessons ∧ nl.module_id = cur.module_id ∧ cur.order_index < nl.order_index ∧
      ∀ l ∈ lessons, l.module_id = cur.module_id → cur.order_index < l.order_index →
        nl.order_index ≤ l.order_index := by
  unfold get_next_lesson at h
  have hmem := min_by_order_index_mem h
  have hle := min_by_order_index_le h
  rw [List.mem_filter] at hmem
  obtain ⟨hin, hpred⟩ := hmem
  simp only [Bool.and_eq_true, beq_iff_eq, decide_eq_true_eq] at hpred
  refine ⟨hin, hpred.1, hpred.2, ?_⟩
  intro l hl hmod hord
  exact hle l (List.mem_filter.mpr ⟨hl, by simp [hmod, hord]⟩)

lemma get_next_lesson_none {lessons : List Lesson} {cur : Lesson}
    (h : get_next_lesson lessons cur = none) :
    ∀ l ∈ lessons, l.module_id = cur.module_id → cur.order_index < l.order_index → False := by
  unfold get_next_lesson at h
  have hnil := min_by_order_index_eq_none h
  intro l hl hmod hord
  have hmemf : l ∈ List.filter (fun l => l.module_id == cur.module_id &&
      decide (cur.order_index < l.order_index)) lessons :=
    List.mem_filter.mpr ⟨hl, by simp [hmod, hord]⟩
  rw [hnil] at hmemf
  simp at hmemf

/-! ### Lemmas about the latest-match query of the upsert -/

lemma latest_match_none {uid : String} {refs : Refs} {db : List Progress}
    (h : latest_match uid refs db = none) :
    ∀ q ∈ db, matches_key uid refs q = false := by
  induction db with
  | nil => intro q hq; simp at hq
  | cons p ps ih =>
    unfold latest_match at h
    split at h
    case _ hm =>
      split at h
      case _ hp => simp at h
      case _ hp =>
        intro q hq
        rcases List.mem_cons.mp hq with hq | hq
        · subst hq
          simp only [Bool.not_eq_true] at hp
          exact hp
        · exact ih hm q hq
    case _ b hm => split at h <;> simp at h

lemma latest_match_spec {uid : String} {refs : Refs} {db : List Progress} {r : Progress}
    (h : latest_match uid refs db = some r) :
    r ∈ db ∧ matches_key uid refs r = true ∧
      ∀ q ∈ db, matches_key uid refs q = true → q.updated_at ≤ r.updated_at := by
  induction db generalizing r with
  | nil => simp [latest_match] at h
  | cons p ps ih =>
    unfold latest_match at h
    split at h
    case _ hm =>
      split at h
      case _ hp =>
        cases h
        refine ⟨List.mem_cons_self _ _, hp, ?_⟩
        intro q hq hqm
        rcases List.mem_cons.mp hq with hq | hq
        · subst hq; exact le_refl _
        · rw [latest_match_none hm q hq] at hqm
          exact absurd hqm (by simp)
      case _ hp => simp at h
    case _ b hm =>
      obtain ⟨hbmem, hbmatch, hbmax⟩ := ih hm
      split at h
      case _ hc =>
        cases h
        simp only [Bool.and_eq_true, decide_eq_true_eq] at hc
        refine ⟨List.mem_cons_self _ _, hc.1, ?_⟩
        intro q hq hqm
        rcases List.mem_cons.mp hq with hq | hq
        · subst hq; exact le_refl _
        · exact le_trans (hbmax q hq hqm) (le_of_lt hc.2)
      case _ hc =>
        cases h
        refine ⟨List.mem_cons_of_mem _ hbmem, hbmatch, ?_⟩
        intro q hq hqm
        rcases List.mem_cons.mp hq with hq | hq
        · subst hq
          simp only [Bool.and_eq_true, decide_eq_true_eq, not_and] at hc
          exact le_of_not_lt (hc hqm)
        · exact hbmax q hq hqm

/-! ### Characterization of `submit_quiz` by branch -/

lemma submit_quiz_not_found {lessons : List Lesson} {activities : List Activity}
    {db : List Progress} {payload : SubmitQuizRequest} {now : Nat} {nextId : Int}
    (hfind : activities.find? (fun a => a.id == payload.activity_id && a.type == "quiz") = none) :
    submit_quiz lessons activities db payload now nextId = (.error .notFound, db) := by
  unfold submit_quiz
  rw [hfind]

lemma submit_quiz_wrong_length {lessons : List Lesson} {activities : List Activity}
    {db : List Progress} {payload : SubmitQuizRequest} {now : Nat} {nextId : Int}
    {activity : Activity}
    (hfind : activities.find? (fun a => a.id == payload.activity_id && a.type == "quiz") =
      some activity)
    (hlen : payload.answers.length ≠ (activity.quiz_questions.getD []).length) :
    submit_quiz lessons activities db payload now nextId = (.error .invalidLength, db) := by
  unfold submit_quiz
  rw [hfind]
  simp only [if_pos hlen]

lemma submit_quiz_type_error {lessons : List Lesson} {activities : List Activity}
    {db : List Progress} {payload : SubmitQuizRequest} {now : Nat} {nextId : Int}
    {activity : Activity}
    (hfind : activities.find? (fun a => a.id == payload.activity_id && a.type == "quiz") =
      some activity)
    (hlen : payload.answers.length = (activity.quiz_questions.getD []).length) :
    submit_quiz lessons activities db payload now nextId = (.error .typeError, db) := by
  unfold submit_quiz
  rw [hfind]
  simp only [if_neg (not_not_intro hlen)]

/-! ### Spec-side definitions (for refinement claims) -/

/-- Spec-side definition (C1): `correctCount` is the number of indices `i`
with `answers[i]` equal to the stored `answerIndex` of question `i`. -/
def spec_correct_count (answers : List Int) (questions : List JValue) : Nat :=
  (answers.zip questions).countP (fun p =>
    match stored_answer_index p.2 with
    | some idx => p.1 == idx
    | none => false)

/-- Spec-side definition (C1):
`score = round(correctCount / totalQuestions * 100, 2 decimal places)`,
and `score = 0.0` when `totalQuestions == 0`. -/
def spec_score (answers : List Int) (questions : List JValue) : ℚ :=
  if questions.length = 0 then 0
  else pyRound2 (((spec_correct_count answers questions : ℚ) / (questions.length : ℚ)) * 100)

/-- Spec-side definition (C2):
`passThreshold = activity.quiz_pass_score if set else 70.0`. -/
def spec_pass_threshold (activity : Activity) : ℚ :=
  activity.quiz_pass_score.getD 70

lemma grade_correct_eq_spec_correct_count (answers : List Int) (questions : List JValue) :
    grade_correct answers questions = spec_correct_count answers questions := rfl

lemma quiz_score_eq_spec_score (answers : List Int) (questions : List JValue) :
    quiz_score (grade_correct answers questions) questions.length =
      spec_score answers questions := by
  unfold quiz_score spec_score
  by_cases h : questions.length = 0
  · simp [h]
  · rw [if_pos h, if_neg h, grade_correct_eq_spec_correct_count, Rat.mkRat_eq_div]
    push_cast
    ring_nf

/-! ### Concrete scenarios used in claim theorems and witnesses -/

/-- A well-formed three-question question set used in concrete scenarios. -/
def quizQ3 : List JValue :=
  [JValue.jobj [("answerIndex", JValue.jint 0)],
   JValue.jobj [("answerIndex", JValue.jint 1)],
   JValue.jobj [("answerIndex", JValue.jint 2)]]

/-- A quiz activity with the default-style pass score 70. -/
def act70 : Activity :=
  { id := 1, lesson_id := 10, type := "quiz",
    quiz_questions := some quizQ3, quiz_pass_score := some 70 }

/-- A quiz activity with pass score 66.67. -/
def act6667 : Activity :=
  { id := 1, lesson_id := 10, type := "quiz",
    quiz_questions := some quizQ3, quiz_pass_score := some (mkRat 6667 100) }

/-- A one-question quiz activity whose `quiz_pass_score` is set to 0. -/
def act_zero_pass : Activity :=
  { id := 2, lesson_id := 10, type := "quiz",
    quiz_questions := some [JValue.jobj [("answerIndex", JValue.jint 0)]],
    quiz_pass_score := some 0 }

/-- A soft-deleted one-question quiz activity. -/
def act_deleted : Activity :=
  { id := 3, lesson_id := 10, type := "quiz",
    quiz_questions := some [JValue.jobj [("answerIndex", JValue.jint 0)]],
    quiz_pass_score := some 70, is_deleted := true }

/-- A quiz activity whose single stored question carries an `answerIndex`
outside the valid range [0,3]. -/
def act_out_of_range : Activity :=
  { id := 4, lesson_id := 10, type := "quiz",
    quiz_questions := some [JValue.jobj [("answerIndex", JValue.jint 7)]],
    quiz_pass_score := some 70 }

/-- A quiz activity whose first stored question is malformed (a null
`answerIndex`) and whose second is well-formed. -/
def act_malformed : Activity :=
  { id := 5, lesson_id := 10, type := "quiz",
    quiz_questions := some [JValue.jobj [("answerIndex", JValue.jnull)],
      JValue.jobj [("answerIndex", JValue.jint 1)]],
    quiz_pass_score := some 70 }

/-- A quiz activity with zero stored questions. -/
def act_no_questions : Activity :=
  { id := 6, lesson_id := 10, type := "quiz", quiz_questions := some [] }

/-- Three lessons of one module, with order indices 1, 2 and 5: the
successor of the first is the second (nearest), not the third. -/
def les1 : Lesson := { id := 10, module_id := 5, order_index := 1 }

/-- See `les1`. -/
def les2 : Lesson := { id := 11, module_id := 5, order_index := 2 }

/-- See `les1`. -/
def les3 : Lesson := { id := 12, module_id := 5, order_index := 5 }

/-! ### Claim theorems -/

/-- C1 (code bug): the score formula of the claim is exactly what the
executed grading lines 197-208 compute — shown at the failing input
(2 of 3 correct gives 66.67, equal to the spec formula) — but the handler
then raises `TypeError` at the `Progress(..., deleted_at=None)`
construction of line 213, so the call returns no score at all and the
table is unchanged. -/
theorem C1_score_formula :
    quiz_score (grade_correct [0, 1, 0] (act70.quiz_questions.getD []))
        (act70.quiz_questions.getD []).length =
      spec_score [0, 1, 0] (act70.quiz_questions.getD []) ∧
    quiz_score (grade_correct [0, 1, 0] (act70.quiz_questions.getD []))
        (act70.quiz_questions.getD []).length = mkRat 6667 100 ∧
    quiz_score 0 0 = 0 ∧
    submit_quiz [] [act70] [] { user_id := "u", activity_id := 1, answers := [0, 1, 0] }
        0 1 = (.error .typeError, []) :=
  ⟨quiz_score_eq_spec_score [0, 1, 0] (act70.quiz_questions.getD []), rfl, rfl, rfl⟩

/-- C3 (code bug): the comparison `passed = score >= pass_score` of the
executed line 210 is inclusive — at the boundary input (pass score 66.67,
computed score exactly 66.67) it yields `passed = true` — but the handler
then raises `TypeError` at line 213, so `passed` is never returned to any
caller: the call errors with the table unchanged. -/
theorem C3_pass_inclusive :
    effective_pass_score act6667 = mkRat 6667 100 ∧
    quiz_score (grade_correct [0, 1, 0] (act6667.quiz_questions.getD []))
        (act6667.quiz_questions.getD []).length = mkRat 6667 100 ∧
    decide (effective_pass_score act6667 ≤
      quiz_score (grade_correct [0, 1, 0] (act6667.quiz_questions.getD []))
        (act6667.quiz_questions.getD []).length) = true ∧
    submit_quiz [] [act6667] [] { user_id := "u", activity_id := 1, answers := [0, 1, 0] }
        0 1 = (.error .typeError, []) :=
  ⟨rfl, rfl, rfl, rfl⟩

/-- C2 (amended): the grading threshold computed at line 209 and compared
at line 210 is the activity's `quiz_pass_score` when that field is set to
a nonzero value, and 70.0 when it is unset or set to 0 (Python's `or`
treats `0.0` as falsy).  No submission observes the comparison's result:
the handler crashes at line 213 right after it (see C1). -/
theorem C2_threshold_default (activity : Activity) :
    (∀ v : ℚ, activity.quiz_pass_score = some v → v ≠ 0 →
      effective_pass_score activity = v ∧
        effective_pass_score activity = spec_pass_threshold activity) ∧
    ((activity.quiz_pass_score = none ∨ activity.quiz_pass_score = some 0) →
      effective_pass_score activity = 70) := by
  constructor
  · intro v hv hv0
    constructor
    · simp [effective_pass_score, pyOrFloat, hv, hv0]
    · simp [effective_pass_score, pyOrFloat, spec_pass_threshold, hv, hv0]
  · rintro (h | h) <;> simp [effective_pass_score, pyOrFloat, h]

/-- C2 counterexample: an activity whose `quiz_pass_score` is set to 0 — a
value the claim says must be used as the threshold.  The spec-side
threshold is 0, but the threshold the code computes at line 209 and
compares at line 210 is 70; the submission then crashes at line 213 with
nothing written, so in particular no submission against this activity is
ever judged against the threshold 0. -/
theorem C2_counterexample :
    act_zero_pass.quiz_pass_score = some 0 ∧
    spec_pass_threshold act_zero_pass = 0 ∧
    effective_pass_score act_zero_pass = 70 ∧
    submit_quiz [] [act_zero_pass] []
        { user_id := "u", activity_id := 2, answers := [1] } 0 1 =
      (.error .typeError, []) :=
  ⟨rfl, rfl, rfl, rfl⟩

/-- C2 witness (for the amended claim): a set, nonzero pass score (66.67)
is used as the threshold. -/
theorem C2_threshold_default_witness :
    effective_pass_score act6667 = mkRat 6667 100 ∧
    effective_pass_score act6667 = spec_pass_threshold act6667 :=
  (C2_threshold_default act6667).1 (mkRat 6667 100) rfl (by decide)

/-- C4: a submission whose answers list has a different length from the
stored question list fails with the invalid-length (HTTP 400,
`InvalidArgument`) error, and the progress table is unchanged — the check
runs before any write. -/
theorem C4_length_mismatch {lessons : List Lesson} {activities : List Activity}
    {db : List Progress} {payload : SubmitQuizRequest} {now : Nat} {nextId : Int}
    {activity : Activity}
    (hfind : activities.find? (fun a => a.id == payload.activity_id && a.type == "quiz") =
      some activity)
    (hlen : payload.answers.length ≠ (activity.quiz_questions.getD []).length) :
    submit_quiz lessons activities db payload now nextId = (.error .invalidLength, db) :=
  submit_quiz_wrong_length hfind hlen

/-- C4 witness: two answers against a three-question quiz. -/
theorem C4_length_mismatch_witness :
    submit_quiz [] [act70] [{ id := 9, user_id := "w" }]
        { user_id := "u", activity_id := 1, answers := [0, 1] } 0 1 =
      (.error .invalidLength, [{ id := 9, user_id := "w" }]) :=
  C4_length_mismatch rfl (by decide)

/-- C5 (amended): the call fails with the not-found (HTTP 404) error, with
the progress table unchanged, exactly when no activity row with the given
id and type `quiz` exists; the soft-delete flag is not consulted, so a
soft-deleted quiz activity passes the existence check — a found activity
never yields `NotFound` (it yields the length error or the persist-step
`TypeError` instead). -/
theorem C5_not_found_amended (lessons : List Lesson) (activities : List Activity)
    (db : List Progress) (payload : SubmitQuizRequest) (now : Nat) (nextId : Int) :
    (activities.find? (fun a => a.id == payload.activity_id && a.type == "quiz") = none →
      submit_quiz lessons activities db payload now nextId = (.error .notFound, db)) ∧
    (∀ activity,
      activities.find? (fun a => a.id == payload.activity_id && a.type == "quiz") =
        some activity →
      (submit_quiz lessons activities db payload now nextId).1 ≠ .error .notFound) := by
  constructor
  · exact submit_quiz_not_found
  · intro activity hfind
    by_cases hlen : payload.answers.length = (activity.quiz_questions.getD []).length
    · rw [submit_quiz_type_error hfind hlen]
      simp
    · rw [submit_quiz_wrong_length hfind hlen]
      simp

/-- C5 counterexample: a soft-deleted quiz activity.  The claim demands
`NotFound`; the query at line 188 never filters on `is_deleted`, so the
activity is found, the 404 branch is not taken, and the call instead
proceeds past grading to the persist-step `TypeError` of line 213 — an
HTTP 500, not the claimed `NotFound` (no row is written either way). -/
theorem C5_counterexample :
    act_deleted.is_deleted = true ∧
    [act_deleted].find? (fun a => a.id == (3 : Int) && a.type == "quiz") =
      some act_deleted ∧
    submit_quiz [] [act_deleted] []
        { user_id := "u", activity_id := 3, answers := [0] } 0 1 =
      (.error .typeError, []) :=
  ⟨rfl, rfl, rfl⟩

/-- C5 witness (for the amended claim): an activity id that matches no
quiz activity yields the not-found error and leaves the table unchanged. -/
theorem C5_not_found_amended_witness :
    submit_quiz [] [act70] [] { user_id := "u", activity_id := 99, answers := [0] } 0 1 =
      (.error .notFound, []) :=
  (C5_not_found_amended [] [act70] [] { user_id := "u", activity_id := 99, answers := [0] }
    0 1).1 rfl

/-- C6 (code bug): the successor query `_get_next_lesson` (lines 67-76)
does select the immediate successor — among lessons with order indices
1, 2 and 5, the successor of the first is the one with index 2, not 5;
with the index-2 lesson absent it is the index-5 lesson, and the last
lesson has none — but the unlock code of lines 246-265 that would consume
it is unreachable: every submission that reaches grading raises
`TypeError` at line 213 first, so no unlock record is ever created and no
`unlocked_next_lesson_id` is ever returned. -/
theorem C6_next_lesson_unlock :
    get_next_lesson [les1, les2, les3] les1 = some les2 ∧
    les2.module_id = les1.module_id ∧
    les1.order_index < les2.order_index ∧
    les2.order_index < les3.order_index ∧
    get_next_lesson [les1, les3] les1 = some les3 ∧
    get_next_lesson [les1, les2, les3] les3 = none ∧
    submit_quiz [les1, les2, les3] [act70] []
        { user_id := "u", activity_id := 1, answers := [0, 1, 2] } 0 1 =
      (.error .typeError, []) :=
  ⟨rfl, rfl, by decide, by decide, rfl, rfl, rfl⟩

/-- C7 (code bug): no successful submission exists, so no call ever
inserts 1, 2 or 3 progress rows: both a would-pass submission (3 of 3
correct against pass score 70) and a would-fail one (2 of 3) raise
`TypeError` at the first `Progress(...)` construction (line 213), before
any `session.add` — zero rows are inserted, and the pre-existing row is
only left unchanged by the rollback. -/
theorem C7_append_only_counts :
    submit_quiz [les1, les2, les3] [act70] [{ id := 9, user_id := "w" }]
        { user_id := "u", activity_id := 1, answers := [0, 1, 2] } 0 1 =
      (.error .typeError, [{ id := 9, user_id := "w" }]) ∧
    submit_quiz [les1, les2, les3] [act70] [{ id := 9, user_id := "w" }]
        { user_id := "u", activity_id := 1, answers := [0, 1, 1] } 0 1 =
      (.error .typeError, [{ id := 9, user_id := "w" }]) :=
  ⟨rfl, rfl⟩

/-- C8 (amended): in the grading loop of lines 197-205 — which does
execute, and never aborts the request — a stored question whose
`answerIndex` is missing or not coercible to an integer is counted as
answered incorrectly while the remaining questions grade normally; but a
question whose `answerIndex` does coerce to an integer — even one outside
[0,3] — is compared as-is, counting correct exactly when the submitted
answer equals that integer.  The submission itself never succeeds: after
grading, the handler raises the persist-step `TypeError` of line 213 (see
C1), so the lenient grading is not observable through the endpoint. -/
theorem C8_malformed_graded_incorrect {lessons : List Lesson} {activities : List Activity}
    {db : List Progress} {payload : SubmitQuizRequest} {now : Nat} {nextId : Int}
    {activity : Activity}
    (hfind : activities.find? (fun a => a.id == payload.activity_id && a.type == "quiz") =
      some activity)
    (hlen : payload.answers.length = (activity.quiz_questions.getD []).length) :
    submit_quiz lessons activities db payload now nextId = (.error .typeError, db) ∧
    (∀ question ans, stored_answer_index question = none →
      grade_answer question ans = false) ∧
    (∀ question ans idx, stored_answer_index question = some idx →
      (grade_answer question ans = true ↔ ans = idx)) := by
  refine ⟨submit_quiz_type_error hfind hlen, ?_, ?_⟩
  · intro question ans h
    unfold grade_answer
    rw [h]
  · intro question ans idx h
    unfold grade_answer
    rw [h]
    simp

/-- C8 counterexample: a stored `answerIndex` of 7 (outside [0,3]) is not
treated as malformed — the submitted answer 7 is counted as correct, not
incorrectly as the claim demands — and the submission does not succeed
either: it raises the persist-step `TypeError`. -/
theorem C8_counterexample :
    stored_answer_index (JValue.jobj [("answerIndex", JValue.jint 7)]) = some 7 ∧
    grade_answer (JValue.jobj [("answerIndex", JValue.jint 7)]) 7 = true ∧
    grade_correct [7] (act_out_of_range.quiz_questions.getD []) = 1 ∧
    submit_quiz [] [act_out_of_range] []
        { user_id := "u", activity_id := 4, answers := [7] } 0 1 =
      (.error .typeError, []) :=
  ⟨rfl, rfl, rfl, rfl⟩

/-- C8 witness: a quiz whose first question is malformed (null
`answerIndex`): grading counts only the well-formed second question, and
the call then fails at the persist step. -/
theorem C8_malformed_graded_incorrect_witness :
    (submit_quiz [] [act_malformed] []
        { user_id := "u", activity_id := 5, answers := [0, 1] } 0 1 =
      (.error .typeError, []) ∧
    (∀ question ans, stored_answer_index question = none →
      grade_answer question ans = false) ∧
    (∀ question ans idx, stored_answer_index question = some idx →
      (grade_answer question ans = true ↔ ans = idx))) ∧
    grade_correct [0, 1] (act_malformed.quiz_questions.getD []) = 1 :=
  ⟨C8_malformed_graded_incorrect rfl rfl, rfl⟩

/-- C10: the public submit operation rejects an empty answers list before
any lookup or write; a quiz with zero stored questions therefore fails for
every submission (empty answers fail request validation, non-empty answers
fail the length check), so every successfully graded response has a
nonzero question count — the zero-questions score branch is unreachable
through the endpoint. -/
theorem C10_zero_questions_unreachable (lessons : List Lesson) (activities : List Activity)
    (db : List Progress) (payload : SubmitQuizRequest) (now : Nat) (nextId : Int) :
    (payload.answers = [] →
      submit_quiz_endpoint lessons activities db payload now nextId =
        (.error .validationError, db)) ∧
    (∀ activity, payload.answers ≠ [] →
      activities.find? (fun a => a.id == payload.activity_id && a.type == "quiz") =
        some activity →
      activity.quiz_questions.getD [] = [] →
      submit_quiz_endpoint lessons activities db payload now nextId =
        (.error .invalidLength, db)) ∧
    (∀ resp db',
      submit_quiz_endpoint lessons activities db payload now nextId = (.ok resp, db') →
      resp.total_questions ≠ 0) := by
  refine ⟨?_, ?_, ?_⟩
  · intro h
    unfold submit_quiz_endpoint
    rw [if_pos (by simp [h])]
  · intro activity hne hfind hq
    unfold submit_quiz_endpoint
    rw [if_neg (by simp [hne])]
    refine submit_quiz_wrong_length hfind ?_
    rw [hq]
    simpa using fun h0 => hne (List.length_eq_zero.mp h0)
  · intro resp db' h
    unfold submit_quiz_endpoint at h
    by_cases he : payload.answers.isEmpty
    · rw [if_pos he] at h
      simp at h
    · rw [if_neg he] at h
      cases hfind : activities.find?
          (fun a => a.id == payload.activity_id && a.type == "quiz") with
      | none =>
        rw [submit_quiz_not_found hfind] at h
        simp at h
      | some activity =>
        by_cases hlen : payload.answers.length = (activity.quiz_questions.getD []).length
        · rw [submit_quiz_type_error hfind hlen] at h
          simp at h
        · rw [submit_quiz_wrong_length hfind hlen] at h
          simp at h

/-- C10 witness: the empty-answers rejection and the failure of a
non-empty submission against a zero-question quiz, both with the table
unchanged. -/
theorem C10_zero_questions_unreachable_witness :
    submit_quiz_endpoint [] [act70] [] { user_id := "u", activity_id := 1, answers := [] }
        0 1 = (.error .validationError, []) ∧
    submit_quiz_endpoint [] [act_no_questions] []
        { user_id := "u", activity_id := 6, answers := [0] } 0 1 =
      (.error .invalidLength, []) :=
  ⟨(C10_zero_questions_unreachable [] [act70] []
      { user_id := "u", activity_id := 1, answers := [] } 0 1).1 rfl,
   (C10_zero_questions_unreachable [] [act_no_questions] []
      { user_id := "u", activity_id := 6, answers := [0] } 0 1).2.1 act_no_questions
      (by simp) rfl rfl⟩

/-- C9: the generic relational upsert, unlike quiz submission, is
update-latest-by-key: when at least one non-deleted progress row matches
the (user_id, subject_id, module_id, lesson_id, activity_id) key, a
matching row of maximal `updated_at` has its `completed` and `score`
fields updated in place (by primary key) and nothing is inserted; only
when no row matches is a fresh row inserted at the end. -/
theorem C9_upsert_update_latest {subjects modules lessons activities : List Int}
    {db : List Progress} {payload : ProgressUpsertPayload} {now : Nat} {newId : Int}
    {refs : Refs}
    (hstatus : payload.status = "completed" ∨ payload.status = "in_progress")
    (hres : resolve_progress_targets payload = .ok refs)
    (hval : validate_references subjects modules lessons activities refs = true) :
    ((∃ p ∈ db, matches_key payload.user_id refs p = true) →
      ∃ r, r ∈ db ∧ matches_key payload.user_id refs r = true ∧
        (∀ q ∈ db, matches_key payload.user_id refs q = true →
          q.updated_at ≤ r.updated_at) ∧
        upsert_progress subjects modules lessons activities db payload now newId =
          .ok (progress_updated r (payload.status == "completed") payload.score now,
            db.map (fun p => if p.id == r.id then
              progress_updated r (payload.status == "completed") payload.score now
              else p)) ∧
        (db.map (fun p => if p.id == r.id then
          progress_updated r (payload.status == "completed") payload.score now
          else p)).length = db.length) ∧
    ((∀ p ∈ db, matches_key payload.user_id refs p = false) →
      upsert_progress subjects modules lessons activities db payload now newId =
        .ok (progress_new newId payload.user_id refs (payload.status == "completed")
            payload.score now,
          db ++ [progress_new newId payload.user_id refs (payload.status == "completed")
            payload.score now])) := by
  have hs : (payload.status != "completed" && payload.status != "in_progress") = false := by
    rcases hstatus with h | h <;> simp [h]
  constructor
  · rintro ⟨p, hp, hpm⟩
    cases hm : latest_match payload.user_id refs db with
    | none =>
      rw [latest_match_none hm p hp] at hpm
      exact absurd hpm (by simp)
    | some r =>
      obtain ⟨hrmem, hrmatch, hrmax⟩ := latest_match_spec hm
      refine ⟨r, hrmem, hrmatch, hrmax, ?_, by simp⟩
      unfold upsert_progress
      rw [hs]
      simp only [Bool.false_eq_true, if_false, hres, hval, Bool.not_true, hm]
  · intro hno
    cases hm : latest_match payload.user_id refs db with
    | some r =>
      obtain ⟨hrmem, hrmatch, _⟩ := latest_match_spec hm
      rw [hno r hrmem] at hrmatch
      exact absurd hrmatch (by simp)
    | none =>
      unfold upsert_progress
      rw [hs]
      simp only [Bool.false_eq_true, if_false, hres, hval, Bool.not_true, hm]

/-- A non-deleted subject-level progress row for user `u`, updated at 5. -/
def prog1 : Progress := { id := 1, user_id := "u", subject_id := some 1, updated_at := 5 }

/-- A non-deleted subject-level progress row for user `u`, updated at 9. -/
def prog2 : Progress := { id := 2, user_id := "u", subject_id := some 1, updated_at := 9 }

/-- The upsert request used in the C9 witness. -/
def upsert_req : ProgressUpsertPayload :=
  { user_id := "u", entity_type := "subject", entity_id := 1,
    status := "completed", score := some 50 }

/-- C9 witness: an upsert for user `u` on subject 1 against a table with
two matching rows. -/
theorem C9_upsert_update_latest_witness :
    ((∃ p ∈ [prog1, prog2],
        matches_key "u" { subject_id := some 1 } p = true) →
      ∃ r, r ∈ [prog1, prog2] ∧ matches_key "u" { subject_id := some 1 } r = true ∧
        (∀ q ∈ [prog1, prog2], matches_key "u" { subject_id := some 1 } q = true →
          q.updated_at ≤ r.updated_at) ∧
        upsert_progress [1] [] [] [] [prog1, prog2] upsert_req 77 3 =
          .ok (progress_updated r (upsert_req.status == "completed") upsert_req.score 77,
            [prog1, prog2].map (fun p => if p.id == r.id then
              progress_updated r (upsert_req.status == "completed") upsert_req.score 77
              else p)) ∧
        ([prog1, prog2].map (fun p => if p.id == r.id then
          progress_updated r (upsert_req.status == "completed") upsert_req.score 77
          else p)).length = [prog1, prog2].length) ∧
    ((∀ p ∈ [prog1, prog2], matches_key "u" { subject_id := some 1 } p = false) →
      upsert_progress [1] [] [] [] [prog1, prog2] upsert_req 77 3 =
        .ok (progress_new 3 "u" { subject_id := some 1 }
            (upsert_req.status == "completed") upsert_req.score 77,
          [prog1, prog2] ++ [progress_new 3 "u" { subject_id := some 1 }
            (upsert_req.status == "completed") upsert_req.score 77])) :=
  @C9_upsert_update_latest [1] [] [] [] [prog1, prog2] upsert_req 77 3
    { subject_id := some 1 } (Or.inl rfl) rfl rfl

end SkillMaster
